import Mathlib

/-!
Shallow embedding of the zaber_X_ADR130 stage controller (zaber_X_ADR130.py).

Conventions of the embedding:
- Python floats are modelled as exact rationals; decimal literals of the
  source are read as the corresponding rationals.
- The serial device is modelled as an oracle: each receive is a raw
  response line (a String), a stream of status polls is a List String of
  already-decoded payloads, and numeric read-backs are the rational values
  carried by the relevant payload tokens.
- Python assertion failures and raised exceptions are modelled as error
  values (Except / Option none); a normal return is a success value.
- Outgoing wire commands are modelled by the inductive type Cmd carrying
  the numeric argument that the source formats into the command string.
-/

namespace ZaberXADR130

/-- True iff the character is CR or LF; used to model the Python call
strip of the two line-terminator characters. -/
def isCRLFChar (c : Char) : Bool := c = '\r' || c = '\n'

/-- Model of the Python expression response.strip applied with the
two terminator characters: remove CR and LF from both ends. -/
def pyStripCRLF (s : String) : String :=
  String.mk (((s.data.dropWhile isCRLFChar).reverse.dropWhile isCRLFChar).reverse)

/-- Helper for pySplit: walk the characters with an accumulator of the
current (reversed) token, breaking on whitespace and emitting no empty
tokens. -/
def splitWSAux : List Char → List Char → List String
  | [], acc => if acc = [] then [] else [String.mk acc.reverse]
  | c :: rest, acc =>
    if c.isWhitespace then
      if acc = [] then splitWSAux rest []
      else String.mk acc.reverse :: splitWSAux rest []
    else splitWSAux rest (c :: acc)

/-- Model of the Python no-argument split: split on whitespace runs,
dropping empty tokens. -/
def pySplit (s : String) : List String := splitWSAux s.data []

/-- Model of response.endswith applied to the CRLF terminator. -/
def endsWithCRLF (s : String) : Bool :=
  match s.data.reverse with
  | '\n' :: '\r' :: _ => true
  | _ => false

/-- Model of the Python slice s[a:b] (for 0 <= a <= b; clamps like
Python). Our response strings are ASCII, so slicing the character list
matches Python string slicing. -/
def strSlice (s : String) (a b : Nat) : String :=
  String.mk ((s.data.drop a).take (b - a))

/-- The three response kinds accepted by the method named underscore-send
(its response-type argument). -/
inductive ResponseType
  | reply
  | info
  | alert
deriving DecidableEq

/-- The marker character mapped to each response kind
(the response-type-to-char dictionary in the source). -/
def responseTypeChar : ResponseType → Char
  | .reply => '@'
  | .info => '#'
  | .alert => '!'

/-- The distinct failures of the receive/validate path of the send method:
bad terminator, indexing an empty stripped line, wrong marker character,
wrong embedded address, and leftover unread bytes after the exchange. -/
inductive SendError
  | framingError
  | indexError
  | unexpectedKind
  | addressMismatch
  | protocolDesync
deriving DecidableEq

/-- Successful result of one receive: the payload (the response with
marker, address and the following space removed, i.e. the Python slice
from index 4) together with whether the caller was notified that the
device rejected the command (status token differing from OK). -/
structure SendResult where
  payload : String
  rejected : Bool
deriving DecidableEq

/-- Model of the receive/validate half of the send method (source lines
80-94): check the CRLF terminator, strip it, check the marker character
against the expected response kind, check the embedded address, notify
the caller (when verbose) if the status token is not OK, check that no
unread bytes remain, and return the payload. -/
def sendDecode (rt : ResponseType) (addr : String) (verbose : Bool)
    (raw : String) (inWaiting : Nat) : Except SendError SendResult :=
  if endsWithCRLF raw = false then .error .framingError else
  let r := pyStripCRLF raw
  match r.data.head? with
  | none => .error .indexError
  | some c0 =>
    if c0 ≠ responseTypeChar rt then .error .unexpectedKind
    else if strSlice r 1 3 ≠ addr then .error .addressMismatch
    else
      let rejected : Except SendError Bool :=
        if verbose then
          match (pySplit r)[2]? with
          | none => .error .indexError
          | some tok => .ok (tok != "OK")
        else .ok false
      match rejected with
      | .error e => .error e
      | .ok rej =>
        if inWaiting ≠ 0 then .error .protocolDesync
        else .ok ⟨String.mk (r.data.drop 4), rej⟩

/-- Outgoing wire commands, carrying the numeric argument the source
formats into the command body string. -/
inductive Cmd
  | statusAll
  | statusX
  | statusY
  | moveAbsX (nm : ℚ)
  | moveAbsY (nm : ℚ)
  | stopX
  | stopY
  | home
  | setMaxspeedX (native : ℚ)
  | setMaxspeedY (native : ℚ)
  | getMaxspeed
deriving DecidableEq

/-- The mutable fields of the Controller instance that the motion and
speed operations read and write. -/
structure StageState where
  x_mm : ℚ
  y_mm : ℚ
  x_mmps : ℚ
  y_mmps : ℚ
  moving : Bool
  moving_x : Bool
  moving_y : Bool
deriving DecidableEq

/-- A per-axis limit interval as stored in the constructor
(the min and max fields in millimetres). -/
structure AxisLimits where
  min_mm : ℚ
  max_mm : ℚ
deriving DecidableEq

/-- Extraction of the busy flag from a status payload: token 2 of the
whitespace-split payload compared with the BUSY literal (as in the
status-query methods); none models the IndexError raised when the payload
has fewer than three tokens. -/
def statusBusy (payload : String) : Option Bool :=
  ((pySplit payload)[2]?).map (fun t => t == "BUSY")

/-- The common wait-until-idle loop shared by the three finish-moving
methods: while the moving flag is set, consume one status payload from
the poll stream and recompute the flag from it. Returns the number of
polls performed and the unconsumed rest of the stream; none models a
malformed poll payload or an exhausted stream (the loop never observing
idle). -/
def pollLoop : Bool → List String → Option (Nat × List String)
  | false, ps => some (0, ps)
  | true, [] => none
  | true, p :: rest => do
    let b ← statusBusy p
    let (n, ps) ← pollLoop b rest
    some (n + 1, ps)

/-- The finish-moving method for the combined axis state (source lines
115-120), modelled on a stream of decoded status payloads. -/
def finish_moving (moving : Bool) (polls : List String) : Option (Nat × List String) :=
  pollLoop moving polls

/-- The finish-moving method for the x axis (source lines 143-148). -/
def finish_moving_x (moving_x : Bool) (polls : List String) : Option (Nat × List String) :=
  pollLoop moving_x polls

/-- The finish-moving method for the y axis (source lines 195-200). -/
def finish_moving_y (moving_y : Bool) (polls : List String) : Option (Nat × List String) :=
  pollLoop moving_y polls

/-- Result of a move operation: the final instance state, the commands
sent on the wire (status polls included), and the unconsumed poll
stream. -/
structure MoveOut where
  st : StageState
  sent : List Cmd
  pollsLeft : List String
deriving DecidableEq

/-- The x-axis move method (source lines 150-166): if the axis is marked
moving, first poll it to idle; resolve a relative target against the
cached position; if the target violates the configured limits, warn and
return with no motion command; otherwise send the absolute move in
nanometres (millimetres times ten to the sixth), mark the axis moving,
cache the target, and when blocking poll the axis to idle. -/
def move_x (lim : AxisLimits) (st : StageState) (x_mm : ℚ)
    (relative block : Bool) (polls : List String) : Option MoveOut := do
  let (npre, polls1) ← pollLoop st.moving_x polls
  let st1 := { st with moving_x := false }
  let target := if relative then st1.x_mm + x_mm else x_mm
  if ¬ (lim.min_mm ≤ target ∧ target ≤ lim.max_mm) then
    some ⟨st1, List.replicate npre Cmd.statusX, polls1⟩
  else if block then do
    let (npost, polls2) ← pollLoop true polls1
    some ⟨{ st1 with x_mm := target, moving_x := false },
          List.replicate npre Cmd.statusX ++ [Cmd.moveAbsX (1000000 * target)]
            ++ List.replicate npost Cmd.statusX, polls2⟩
  else
    some ⟨{ st1 with x_mm := target, moving_x := true },
          List.replicate npre Cmd.statusX ++ [Cmd.moveAbsX (1000000 * target)], polls1⟩

/-- The y-axis move method (source lines 202-218), mirror of move_x. -/
def move_y (lim : AxisLimits) (st : StageState) (y_mm : ℚ)
    (relative block : Bool) (polls : List String) : Option MoveOut := do
  let (npre, polls1) ← pollLoop st.moving_y polls
  let st1 := { st with moving_y := false }
  let target := if relative then st1.y_mm + y_mm else y_mm
  if ¬ (lim.min_mm ≤ target ∧ target ≤ lim.max_mm) then
    some ⟨st1, List.replicate npre Cmd.statusY, polls1⟩
  else if block then do
    let (npost, polls2) ← pollLoop true polls1
    some ⟨{ st1 with y_mm := target, moving_y := false },
          List.replicate npre Cmd.statusY ++ [Cmd.moveAbsY (1000000 * target)]
            ++ List.replicate npost Cmd.statusY, polls2⟩
  else
    some ⟨{ st1 with y_mm := target, moving_y := true },
          List.replicate npre Cmd.statusY ++ [Cmd.moveAbsY (1000000 * target)], polls1⟩

/-- The two-axis move method (source lines 246-258): move x then y, both
non-blocking at the wire level, mark the combined state moving, and when
blocking poll the combined status to idle and clear both axis flags. -/
def move_mm (limx limy : AxisLimits) (st : StageState) (x_mm y_mm : ℚ)
    (relative block : Bool) (polls : List String) : Option MoveOut := do
  let ox ← move_x limx st x_mm relative false polls
  let oy ← move_y limy ox.st y_mm relative false ox.pollsLeft
  let st2 := { oy.st with moving := true }
  if block then do
    let (n, ps) ← pollLoop true oy.pollsLeft
    some ⟨{ st2 with moving := false, moving_x := false, moving_y := false },
          ox.sent ++ oy.sent ++ List.replicate n Cmd.statusAll, ps⟩
  else
    some ⟨st2, ox.sent ++ oy.sent, oy.pollsLeft⟩

/-- Failures of a stop method: a propagated receive error, or the
assertion on the acknowledgment payload (any payload outside the
recognized busy-stop strings). -/
inductive StopErr
  | send (e : SendError)
  | unexpectedAck
deriving DecidableEq

/-- The x-axis stop method (source lines 168-174): send the stop command,
then assert that the decoded payload is one of the two recognized
busy-stop acknowledgment strings for axis 1. -/
def stop_x (addr : String) (verbose : Bool) (raw : String)
    (inWaiting : Nat) : Except StopErr Unit :=
  match sendDecode .reply addr verbose raw inWaiting with
  | .error e => .error (.send e)
  | .ok r =>
    if r.payload = "1 OK BUSY -- 0" ∨ r.payload = "1 OK BUSY NI 0" then .ok ()
    else .error .unexpectedAck

/-- The y-axis stop method (source lines 220-226), mirror of stop_x with
the axis-2 acknowledgment strings. -/
def stop_y (addr : String) (verbose : Bool) (raw : String)
    (inWaiting : Nat) : Except StopErr Unit :=
  match sendDecode .reply addr verbose raw inWaiting with
  | .error e => .error (.send e)
  | .ok r =>
    if r.payload = "2 OK BUSY -- 0" ∨ r.payload = "2 OK BUSY NI 0" then .ok ()
    else .error .unexpectedAck

/-- Floor of a rational, computed as floor division of the numerator by
the denominator (kept explicit so that it evaluates by reduction). -/
def ratFloor (q : ℚ) : ℤ := Int.fdiv q.num (q.den : ℤ)

/-- The explicit floor agrees with the Mathlib floor. -/
theorem ratFloor_eq_floor (q : ℚ) : ratFloor q = ⌊q⌋ := by
  rw [ratFloor, Int.fdiv_eq_ediv _ (Int.natCast_nonneg _), Rat.floor_def]

/-- Model of the Python built-in round to three decimal places
(round half to even, as Python rounds). -/
def pyRound3 (q : ℚ) : ℚ :=
  let s := q * 1000
  let n := ratFloor s
  let f := s - (n : ℚ)
  let r : ℤ :=
    if f < 1/2 then n
    else if 1/2 < f then n + 1
    else if n % 2 = 0 then n else n + 1
  (r : ℚ) / 1000

/-- Conversion of a speed in millimetres per second to the native wire
value, as formatted into the set-maxspeed command body:
ten to the sixth times 1.6384 times the speed. -/
def mmps_to_native (v : ℚ) : ℚ := 1000000 * (16384/10000) * v

/-- Conversion of a native read-back value to millimetres per second, as
computed in get_maxspeed: round to three decimals of
(ten to the minus sixth times the value divided by 1.6384). -/
def native_to_mmps (s : ℚ) : ℚ := pyRound3 ((1/1000000) * s / (16384/10000))

/-- The get_maxspeed method (source lines 260-269): convert the two
native read-back values (the numeric content of payload tokens 4 and 5),
cache them, and return them. -/
def get_maxspeed (st : StageState) (devx devy : ℚ) : StageState × ℚ × ℚ :=
  let x := native_to_mmps devx
  let y := native_to_mmps devy
  ({ st with x_mmps := x, y_mmps := y }, x, y)

/-- Failures of set_maxspeed: the range assertion on the requested
speeds, or the read-back verification assertion. -/
inductive SpeedErr
  | rangeError
  | verificationError
deriving DecidableEq

/-- Result of set_maxspeed: the failure if any, the final instance
state, and the commands sent on the wire. -/
structure SpeedOut where
  err : Option SpeedErr
  st : StageState
  sent : List Cmd
deriving DecidableEq

/-- The set_maxspeed method (source lines 271-283): substitute the cached
speed for an omitted argument, assert both requested speeds lie in
[0.01, 750] before sending anything, send the two per-axis set-maxspeed
commands with native wire values, re-read the speed (updating the cache),
and assert the read-back pair equals the requested pair. The two devx and
devy arguments are the native values the device reports to the re-read. -/
def set_maxspeed (st : StageState) (x? y? : Option ℚ) (devx devy : ℚ) : SpeedOut :=
  let x := x?.getD st.x_mmps
  let y := y?.getD st.y_mmps
  if ¬ (1/100 ≤ x ∧ x ≤ 750 ∧ 1/100 ≤ y ∧ y ≤ 750) then
    ⟨some .rangeError, st, []⟩
  else
    let sent := [Cmd.setMaxspeedX (mmps_to_native x),
                 Cmd.setMaxspeedY (mmps_to_native y), Cmd.getMaxspeed]
    let g := get_maxspeed st devx devy
    if ¬ (g.2.1 = x ∧ g.2.2 = y) then ⟨some .verificationError, g.1, sent⟩
    else ⟨none, g.1, sent⟩

/-- Failures of the startup warning-resolution sequence: the home
acknowledgment assertion, a failing poll loop while homing, or an
unrecognized re-queried warning string. -/
inductive StartupErr
  | homeAckError
  | pollFailure
  | unrecognizedWarnings
deriving DecidableEq

/-- Result of the startup warning resolution: whether the home sequence
was run, and the failure if any. -/
structure StartupOut where
  homed : Bool
  err : Option StartupErr
deriving DecidableEq

/-- Membership of a warning string in the tuple of the two recognized
healthy warning strings (source line 65). -/
def healthyWarn (w : String) : Bool :=
  w == "0 OK IDLE -- 00" || w == "0 OK IDLE NI 01 NI"

/-- The warning-resolution part of the constructor (source lines 62-66
together with the home method, lines 122-130): if the first warning query
returns exactly the needs-homing string, run the home sequence (assert
the home acknowledgment, then poll the combined status to idle); then
re-query warnings and fail unless the result is one of the two recognized
healthy strings. The w1 and w2 arguments are the payloads of the first
and second warning queries, homeAck the home acknowledgment payload, and
polls the status stream consumed while homing. -/
def startupWarnings (w1 homeAck : String) (polls : List String) (w2 : String) : StartupOut :=
  if w1 = "0 OK IDLE WR 01 WR" then
    if homeAck ≠ "0 OK BUSY WR 0" then ⟨true, some .homeAckError⟩
    else
      match pollLoop true polls with
      | none => ⟨true, some .pollFailure⟩
      | some _ =>
        if healthyWarn w2 then ⟨true, none⟩ else ⟨true, some .unrecognizedWarnings⟩
  else
    if healthyWarn w2 then ⟨false, none⟩ else ⟨false, some .unrecognizedWarnings⟩

/-- Claim C3: for every received response line, decoding fails with
FramingError on a missing CRLF terminator, with UnexpectedKind when the
leading marker character does not match the expected response kind, and
with AddressMismatch when the embedded address differs from the stored
device address; each failure occurs whenever that single fault is
present (the earlier checks passing). -/
theorem c3_decode_single_faults :
    (∀ (rt : ResponseType) (addr : String) (verbose : Bool) (raw : String) (inW : Nat),
      endsWithCRLF raw = false →
      sendDecode rt addr verbose raw inW = .error .framingError)
    ∧ (∀ (rt : ResponseType) (addr : String) (verbose : Bool) (raw : String) (inW : Nat)
        (c0 : Char), endsWithCRLF raw = true →
      (pyStripCRLF raw).data.head? = some c0 → c0 ≠ responseTypeChar rt →
      sendDecode rt addr verbose raw inW = .error .unexpectedKind)
    ∧ (∀ (rt : ResponseType) (addr : String) (verbose : Bool) (raw : String) (inW : Nat),
      endsWithCRLF raw = true →
      (pyStripCRLF raw).data.head? = some (responseTypeChar rt) →
      strSlice (pyStripCRLF raw) 1 3 ≠ addr →
      sendDecode rt addr verbose raw inW = .error .addressMismatch) := by
  refine ⟨?_, ?_, ?_⟩
  · intro rt addr verbose raw inW h
    simp [sendDecode, h]
  · intro rt addr verbose raw inW c0 h1 h2 h3
    simp [sendDecode, h1, h2, h3]
  · intro rt addr verbose raw inW h1 h2 h3
    simp [sendDecode, h1, h2, h3]

/-- Witness for c3_decode_single_faults at concrete single-fault
responses. -/
theorem c3_decode_single_faults_witness :
    sendDecode .reply "01" true "@01 0 OK IDLE -- 00" 0 = .error .framingError
    ∧ sendDecode .reply "01" true "#01 0 OK IDLE -- 00\r\n" 0 = .error .unexpectedKind
    ∧ sendDecode .reply "01" true "@02 0 OK IDLE -- 00\r\n" 0 = .error .addressMismatch :=
  ⟨c3_decode_single_faults.1 .reply "01" true "@01 0 OK IDLE -- 00" 0 (by decide),
   c3_decode_single_faults.2.1 .reply "01" true "#01 0 OK IDLE -- 00\r\n" 0 '#'
     (by decide) (by decide) (by decide),
   c3_decode_single_faults.2.2 .reply "01" true "@02 0 OK IDLE -- 00\r\n" 0
     (by decide) (by decide) (by decide)⟩

/-- Claim C4: after every decode the unread-byte count of the transport
is checked: a successful decode forces the count to be zero, and a
nonzero count on an otherwise valid response is the fatal
desynchronization error. -/
theorem c4_desync_check :
    (∀ (rt : ResponseType) (addr : String) (verbose : Bool) (raw : String)
        (inW : Nat) (r : SendResult),
      sendDecode rt addr verbose raw inW = .ok r → inW = 0)
    ∧ (∀ (rt : ResponseType) (addr : String) (raw : String) (inW : Nat),
      endsWithCRLF raw = true →
      (pyStripCRLF raw).data.head? = some (responseTypeChar rt) →
      strSlice (pyStripCRLF raw) 1 3 = addr → inW ≠ 0 →
      sendDecode rt addr false raw inW = .error .protocolDesync) := by
  constructor
  · intro rt addr verbose raw inW r h
    by_cases h1 : endsWithCRLF raw = false
    · simp [sendDecode, h1] at h
    · rcases h2 : (pyStripCRLF raw).data.head? with _ | c0
      · simp [sendDecode, h1, h2] at h
      · by_cases h3 : c0 = responseTypeChar rt
        · by_cases h4 : strSlice (pyStripCRLF raw) 1 3 = addr
          · by_cases hv : verbose
            · rcases h5 : (pySplit (pyStripCRLF raw))[2]? with _ | tok
              · simp [sendDecode, h1, h2, h3, h4, hv, h5] at h
              · by_cases h0 : inW = 0
                · exact h0
                · simp [sendDecode, h1, h2, h3, h4, hv, h5, h0] at h
            · by_cases h0 : inW = 0
              · exact h0
              · simp [sendDecode, h1, h2, h3, h4, hv, h0] at h
          · simp [sendDecode, h1, h2, h3, h4] at h
        · simp [sendDecode, h1, h2, h3] at h
  · intro rt addr raw inW h1 h2 h3 h4
    simp [sendDecode, h1, h2, h3, h4]

/-- Witness for c4_desync_check: a valid response decoded with zero
unread bytes forces count zero, and the same response with three unread
bytes is the desynchronization error. -/
theorem c4_desync_check_witness :
    (0 : Nat) = 0
    ∧ sendDecode .reply "01" false "@01 0 OK IDLE -- 00\r\n" 3 = .error .protocolDesync :=
  ⟨c4_desync_check.1 .reply "01" false "@01 0 OK IDLE -- 00\r\n" 0
      ⟨"0 OK IDLE -- 00", false⟩ rfl,
   c4_desync_check.2 .reply "01" "@01 0 OK IDLE -- 00\r\n" 3
      (by decide) (by decide) (by decide) (by decide)⟩

/-- Claim C7: a response whose status token differs from the literal OK
still decodes successfully: the parsed frame is returned to the caller
and the caller is notified of the device-level rejection; the non-OK
status never yields a protocol error. -/
theorem c7_rejected_decode :
    ∀ (rt : ResponseType) (addr : String) (raw : String) (tok : String),
      endsWithCRLF raw = true →
      (pyStripCRLF raw).data.head? = some (responseTypeChar rt) →
      strSlice (pyStripCRLF raw) 1 3 = addr →
      (pySplit (pyStripCRLF raw))[2]? = some tok → tok ≠ "OK" →
      sendDecode rt addr true raw 0 = .ok ⟨String.mk ((pyStripCRLF raw).data.drop 4), true⟩ := by
  intro rt addr raw tok h1 h2 h3 h4 h5
  simp [sendDecode, h1, h2, h3, h4, h5]

/-- Witness for c7_rejected_decode at a concrete rejected response. -/
theorem c7_rejected_decode_witness :
    sendDecode .reply "01" true "@01 0 RJ IDLE -- 00\r\n" 0
      = .ok ⟨"0 RJ IDLE -- 00", true⟩ := by
  have h := c7_rejected_decode .reply "01" "@01 0 RJ IDLE -- 00\r\n" "RJ"
    (by decide) (by decide) (by decide) (by decide) (by decide)
  simpa using h

/-- Claim C8: a per-axis stop succeeds exactly when the decoded
acknowledgment payload is one of the two recognized busy-stop strings
for that axis, and any other acknowledgment is the fatal
unexpected-acknowledgment error. -/
theorem c8_stop_ack :
    ∀ (addr : String) (verbose : Bool) (raw : String) (inW : Nat) (r : SendResult),
      sendDecode .reply addr verbose raw inW = .ok r →
      ((stop_x addr verbose raw inW = .ok () ↔
          (r.payload = "1 OK BUSY -- 0" ∨ r.payload = "1 OK BUSY NI 0"))
        ∧ (¬ (r.payload = "1 OK BUSY -- 0" ∨ r.payload = "1 OK BUSY NI 0") →
          stop_x addr verbose raw inW = .error .unexpectedAck))
      ∧ ((stop_y addr verbose raw inW = .ok () ↔
          (r.payload = "2 OK BUSY -- 0" ∨ r.payload = "2 OK BUSY NI 0"))
        ∧ (¬ (r.payload = "2 OK BUSY -- 0" ∨ r.payload = "2 OK BUSY NI 0") →
          stop_y addr verbose raw inW = .error .unexpectedAck)) := by
  intro addr verbose raw inW r h
  constructor
  · constructor
    · by_cases hc : r.payload = "1 OK BUSY -- 0" ∨ r.payload = "1 OK BUSY NI 0"
      · simp [stop_x, h, hc]
      · simp [stop_x, h, hc]
    · intro hc
      simp [stop_x, h, hc]
  · constructor
    · by_cases hc : r.payload = "2 OK BUSY -- 0" ∨ r.payload = "2 OK BUSY NI 0"
      · simp [stop_y, h, hc]
      · simp [stop_y, h, hc]
    · intro hc
      simp [stop_y, h, hc]

/-- Witness for c8_stop_ack at a concrete recognized x-axis
acknowledgment. -/
theorem c8_stop_ack_witness :
    stop_x "01" true "@01 1 OK BUSY -- 0\r\n" 0 = .ok () := by
  have h := c8_stop_ack "01" true "@01 1 OK BUSY -- 0\r\n" 0
    ⟨"1 OK BUSY -- 0", false⟩ rfl
  exact h.1.1.mpr (by decide)

/-- Claim C9: when the device reports busy for the first N status polls
and idle on poll N plus one, each of the three wait-until-idle loops
performs exactly those N plus one polls and terminates, leaving the rest
of the poll stream unconsumed. -/
theorem c9_poll_termination :
    ∀ (N : ℕ) (busyP idleP : String) (rest : List String),
      statusBusy busyP = some true → statusBusy idleP = some false →
      finish_moving true (List.replicate N busyP ++ idleP :: rest) = some (N + 1, rest)
      ∧ finish_moving_x true (List.replicate N busyP ++ idleP :: rest) = some (N + 1, rest)
      ∧ finish_moving_y true (List.replicate N busyP ++ idleP :: rest) = some (N + 1, rest) := by
  intro N busyP idleP rest hb hi
  have key : ∀ (M : ℕ) (r2 : List String),
      pollLoop true (List.replicate M busyP ++ idleP :: r2) = some (M + 1, r2) := by
    intro M
    induction M with
    | zero =>
      intro r2
      simp [pollLoop, hi]
    | succ n ih =>
      intro r2
      simp [List.replicate_succ, pollLoop, hb, ih r2]
  exact ⟨key N rest, key N rest, key N rest⟩

/-- Witness for c9_poll_termination with two busy polls before idle and
with idle on the first poll. -/
theorem c9_poll_termination_witness :
    finish_moving true ["0 OK BUSY -- 00", "0 OK BUSY -- 00", "0 OK IDLE -- 00", "z"]
      = some (3, ["z"])
    ∧ finish_moving_x true ["0 OK IDLE -- 00"] = some (1, [])
    ∧ finish_moving_y true ["0 OK IDLE -- 00"] = some (1, []) :=
  ⟨(c9_poll_termination 2 "0 OK BUSY -- 00" "0 OK IDLE -- 00" ["z"] rfl rfl).1,
   (c9_poll_termination 0 "0 OK BUSY -- 00" "0 OK IDLE -- 00" [] rfl rfl).2.1,
   (c9_poll_termination 0 "0 OK BUSY -- 00" "0 OK IDLE -- 00" [] rfl rfl).2.2⟩

/-- The healthy-warning membership unfolded to a disjunction of the two
recognized strings. -/
theorem healthyWarn_iff (w : String) :
    healthyWarn w = true ↔ (w = "0 OK IDLE -- 00" ∨ w = "0 OK IDLE NI 01 NI") := by
  simp [healthyWarn]

/-- Claim C6: during startup the home sequence runs exactly when the
first warning query returns the one recognized needs-homing string, and,
provided the home sequence itself succeeds when run, construction fails
exactly when the re-queried warning string is not one of the two
recognized healthy strings. -/
theorem c6_startup_warnings :
    ∀ (w1 homeAck : String) (polls : List String) (w2 : String),
      ((startupWarnings w1 homeAck polls w2).homed = true ↔ w1 = "0 OK IDLE WR 01 WR")
      ∧ (homeAck = "0 OK BUSY WR 0" → pollLoop true polls ≠ none →
          ((startupWarnings w1 homeAck polls w2).err = none ↔
            (w2 = "0 OK IDLE -- 00" ∨ w2 = "0 OK IDLE NI 01 NI"))
          ∧ ((startupWarnings w1 homeAck polls w2).err = some .unrecognizedWarnings ↔
            ¬ (w2 = "0 OK IDLE -- 00" ∨ w2 = "0 OK IDLE NI 01 NI"))) := by
  intro w1 homeAck polls w2
  refine ⟨?_, ?_⟩
  · by_cases hw1 : w1 = "0 OK IDLE WR 01 WR"
    · by_cases hha : homeAck = "0 OK BUSY WR 0"
      · rcases hp : pollLoop true polls with _ | pr
        · simp [startupWarnings, hw1, hha, hp]
        · by_cases hh : healthyWarn w2 = true <;>
            simp [startupWarnings, hw1, hha, hp, hh]
      · simp [startupWarnings, hw1, hha]
    · by_cases hh : healthyWarn w2 = true <;> simp [startupWarnings, hw1, hh]
  · intro hha hpne
    rcases hp : pollLoop true polls with _ | pr
    · exact absurd hp hpne
    · by_cases hw1 : w1 = "0 OK IDLE WR 01 WR"
      · by_cases hh : healthyWarn w2 = true
        · simp [startupWarnings, hw1, hha, hp, hh, (healthyWarn_iff w2).mp hh]
        · have hnd : ¬ (w2 = "0 OK IDLE -- 00" ∨ w2 = "0 OK IDLE NI 01 NI") := by
            rw [← healthyWarn_iff]
            simpa using hh
          simp [startupWarnings, hw1, hha, hp, hh, hnd]
      · by_cases hh : healthyWarn w2 = true
        · simp [startupWarnings, hw1, hh, (healthyWarn_iff w2).mp hh]
        · have hnd : ¬ (w2 = "0 OK IDLE -- 00" ∨ w2 = "0 OK IDLE NI 01 NI") := by
            rw [← healthyWarn_iff]
            simpa using hh
          simp [startupWarnings, hw1, hh, hnd]

/-- Witness for c6_startup_warnings: needs-homing then healthy homes and
succeeds; an unrecognized re-queried warning without homing fails. -/
theorem c6_startup_warnings_witness :
    ((startupWarnings "0 OK IDLE WR 01 WR" "0 OK BUSY WR 0" ["0 OK IDLE -- 00"]
        "0 OK IDLE -- 00").homed = true)
    ∧ ((startupWarnings "0 OK IDLE WR 01 WR" "0 OK BUSY WR 0" ["0 OK IDLE -- 00"]
        "0 OK IDLE -- 00").err = none)
    ∧ ((startupWarnings "0 OK IDLE -- 00" "0 OK BUSY WR 0" ["0 OK IDLE -- 00"]
        "bad").err = some .unrecognizedWarnings) := by
  have h1 := c6_startup_warnings "0 OK IDLE WR 01 WR" "0 OK BUSY WR 0"
    ["0 OK IDLE -- 00"] "0 OK IDLE -- 00"
  have h2 := c6_startup_warnings "0 OK IDLE -- 00" "0 OK BUSY WR 0"
    ["0 OK IDLE -- 00"] "bad"
  refine ⟨h1.1.mpr rfl, ?_, ?_⟩
  · exact ((h1.2 rfl (by decide)).1).mpr (Or.inl rfl)
  · exact ((h2.2 rfl (by decide)).2).mpr (by decide)

/-- Claim C10: an omitted argument of set_maxspeed is substituted by the
cached per-axis speed, the value stored by the last get_maxspeed
read-back, so calling set_maxspeed with no arguments re-applies the
cached speeds. -/
theorem c10_cached_speed_default :
    ∀ (st : StageState) (devx devy : ℚ),
      set_maxspeed st none none devx devy
        = set_maxspeed st (some st.x_mmps) (some st.y_mmps) devx devy
      ∧ (get_maxspeed st devx devy).1.x_mmps = native_to_mmps devx
      ∧ (get_maxspeed st devx devy).1.y_mmps = native_to_mmps devy := by
  intro st devx devy
  exact ⟨rfl, rfl, rfl⟩

/-- Counterexample to claim C5 as stated: for the request 0.0151 mm/s on
x with a device whose read-back round-trips the sent value faithfully,
the read-back equals the quantized round-tripped request (so under the
claimed comparison verification would pass), yet the code raises the
verification failure because it compares the read-back against the raw
input. -/
theorem c5_speed_counterexample :
    (set_maxspeed ⟨0, 0, 100, 100, false, false, false⟩ (some (151/10000)) (some 100)
        (mmps_to_native (151/10000)) (mmps_to_native 100)).err
      = some SpeedErr.verificationError
    ∧ native_to_mmps (mmps_to_native (151/10000)) = pyRound3 (151/10000)
    ∧ native_to_mmps (mmps_to_native 100) = pyRound3 100
    ∧ pyRound3 (151/10000) ≠ (151/10000 : ℚ)
    ∧ pyRound3 100 = (100 : ℚ)
    ∧ (1/100 : ℚ) ≤ 151/10000 ∧ (151/10000 : ℚ) ≤ 750 := by
  have hr1 : pyRound3 (151/10000 : ℚ) = 3/200 := by
    simp only [pyRound3]
    norm_num [ratFloor_eq_floor]
  have hr2 : pyRound3 (100 : ℚ) = 100 := by
    simp only [pyRound3]
    norm_num [ratFloor_eq_floor]
  have hfx : native_to_mmps (mmps_to_native (151/10000 : ℚ)) = 3/200 := by
    have harg : (1/1000000 : ℚ) * mmps_to_native (151/10000) / (16384/10000) = 151/10000 := by
      simp only [mmps_to_native]
      norm_num
    simp only [native_to_mmps]
    rw [harg, hr1]
  have hfy : native_to_mmps (mmps_to_native (100 : ℚ)) = 100 := by
    have harg : (1/1000000 : ℚ) * mmps_to_native 100 / (16384/10000) = 100 := by
      simp only [mmps_to_native]
      norm_num
    simp only [native_to_mmps]
    rw [harg, hr2]
  have hv : ¬ (native_to_mmps (mmps_to_native (151/10000 : ℚ)) = 151/10000
      ∧ native_to_mmps (mmps_to_native (100 : ℚ)) = 100) := by
    rw [hfx]
    norm_num
  refine ⟨?_, ?_, ?_, ?_, hr2, by norm_num, by norm_num⟩
  · simp only [set_maxspeed, get_maxspeed, Option.getD_some]
    rw [if_neg (not_not_intro (by norm_num)), if_pos hv]
  · rw [hfx, hr1]
  · rw [hfy, hr2]
  · rw [hr1]
    norm_num

/-- Claim C5 as amended: set_maxspeed rejects, before any command is
sent, any requested speed outside [0.01, 750] mm/s; otherwise it sends
both axis set-maxspeed commands with native wire values (mm/s times
1.6384 times ten to the sixth), re-reads the speed, and fails exactly
when the read-back does not equal the raw requested values (so a request
that quantization alters fails verification even when the device
round-trip is faithful). -/
theorem c5_speed_verify_amended :
    ∀ (st : StageState) (x y devx devy : ℚ),
      (¬ (1/100 ≤ x ∧ x ≤ 750 ∧ 1/100 ≤ y ∧ y ≤ 750) →
        set_maxspeed st (some x) (some y) devx devy = ⟨some .rangeError, st, []⟩)
      ∧ ((1/100 ≤ x ∧ x ≤ 750 ∧ 1/100 ≤ y ∧ y ≤ 750) →
        ((set_maxspeed st (some x) (some y) devx devy).sent
            = [Cmd.setMaxspeedX (mmps_to_native x), Cmd.setMaxspeedY (mmps_to_native y),
               Cmd.getMaxspeed])
        ∧ ((set_maxspeed st (some x) (some y) devx devy).err = none ↔
            (native_to_mmps devx = x ∧ native_to_mmps devy = y))
        ∧ ((set_maxspeed st (some x) (some y) devx devy).err = some .verificationError ↔
            ¬ (native_to_mmps devx = x ∧ native_to_mmps devy = y))) := by
  intro st x y devx devy
  constructor
  · intro h
    simp only [set_maxspeed, Option.getD_some]
    rw [if_pos h]
  · intro h
    have hc : ¬¬(1/100 ≤ x ∧ x ≤ 750 ∧ 1/100 ≤ y ∧ y ≤ 750) := not_not_intro h
    simp only [set_maxspeed, get_maxspeed, Option.getD_some]
    rw [if_neg hc]
    by_cases hv : native_to_mmps devx = x ∧ native_to_mmps devy = y
    · rw [if_neg (not_not_intro hv)]
      refine ⟨rfl, ?_, ?_⟩ <;> simp [hv]
    · rw [if_pos hv]
      refine ⟨rfl, ?_, ?_⟩ <;> simp [hv]

/-- Witness for c5_speed_verify_amended: an out-of-range request is
rejected with nothing sent, and an in-range request that the device
round-trips exactly verifies successfully. -/
theorem c5_speed_verify_witness :
    set_maxspeed ⟨0, 0, 100, 100, false, false, false⟩ (some 800) (some 100) 0 0
      = ⟨some .rangeError, ⟨0, 0, 100, 100, false, false, false⟩, []⟩
    ∧ (set_maxspeed ⟨0, 0, 100, 100, false, false, false⟩ (some 100) (some 100)
        (mmps_to_native 100) (mmps_to_native 100)).err = none := by
  have hr2 : pyRound3 (100 : ℚ) = 100 := by
    simp only [pyRound3]
    norm_num [ratFloor_eq_floor]
  have hfy : native_to_mmps (mmps_to_native (100 : ℚ)) = 100 := by
    have harg : (1/1000000 : ℚ) * mmps_to_native 100 / (16384/10000) = 100 := by
      simp only [mmps_to_native]
      norm_num
    simp only [native_to_mmps]
    rw [harg, hr2]
  constructor
  · exact (c5_speed_verify_amended ⟨0, 0, 100, 100, false, false, false⟩
      800 100 0 0).1 (by norm_num)
  · exact ((c5_speed_verify_amended ⟨0, 0, 100, 100, false, false, false⟩
      100 100 (mmps_to_native 100) (mmps_to_native 100)).2
        (by norm_num)).2.1.mpr ⟨hfy, hfy⟩

/-- Claim C2: for an in-range target, a per-axis move first resolves a
pending busy state by polling it to idle, computes the absolute target
(adding the cached position when relative), sends one absolute-move
command whose wire argument is the target in nanometres (mm times ten to
the sixth), marks the axis moving and caches the validated target; when
blocking it additionally polls the axis to idle before returning. -/
theorem c2_inrange_move :
    (∀ (lim : AxisLimits) (st : StageState) (v : ℚ) (rel : Bool)
        (polls polls1 : List String) (npre : ℕ),
      pollLoop st.moving_x polls = some (npre, polls1) →
      (lim.min_mm ≤ (if rel then st.x_mm + v else v)
        ∧ (if rel then st.x_mm + v else v) ≤ lim.max_mm) →
      move_x lim st v rel false polls
          = some ⟨{ st with x_mm := if rel then st.x_mm + v else v, moving_x := true },
              List.replicate npre Cmd.statusX
                ++ [Cmd.moveAbsX (1000000 * (if rel then st.x_mm + v else v))], polls1⟩
        ∧ (∀ (npost : ℕ) (polls2 : List String),
            pollLoop true polls1 = some (npost, polls2) →
            move_x lim st v rel true polls
              = some ⟨{ st with x_mm := if rel then st.x_mm + v else v, moving_x := false },
                  List.replicate npre Cmd.statusX
                    ++ [Cmd.moveAbsX (1000000 * (if rel then st.x_mm + v else v))]
                    ++ List.replicate npost Cmd.statusX, polls2⟩))
    ∧ (∀ (lim : AxisLimits) (st : StageState) (v : ℚ) (rel : Bool)
        (polls polls1 : List String) (npre : ℕ),
      pollLoop st.moving_y polls = some (npre, polls1) →
      (lim.min_mm ≤ (if rel then st.y_mm + v else v)
        ∧ (if rel then st.y_mm + v else v) ≤ lim.max_mm) →
      move_y lim st v rel false polls
          = some ⟨{ st with y_mm := if rel then st.y_mm + v else v, moving_y := true },
              List.replicate npre Cmd.statusY
                ++ [Cmd.moveAbsY (1000000 * (if rel then st.y_mm + v else v))], polls1⟩
        ∧ (∀ (npost : ℕ) (polls2 : List String),
            pollLoop true polls1 = some (npost, polls2) →
            move_y lim st v rel true polls
              = some ⟨{ st with y_mm := if rel then st.y_mm + v else v, moving_y := false },
                  List.replicate npre Cmd.statusY
                    ++ [Cmd.moveAbsY (1000000 * (if rel then st.y_mm + v else v))]
                    ++ List.replicate npost Cmd.statusY, polls2⟩)) := by
  constructor
  · intro lim st v rel polls polls1 npre hpre hin
    have hni := not_not_intro hin
    constructor
    · simp only [move_x, hpre, Option.bind_eq_bind, Option.some_bind]
      rw [if_neg hni]
      rfl
    · intro npost polls2 hpost
      simp only [move_x, hpre, hpost, Option.bind_eq_bind, Option.some_bind]
      rw [if_neg hni]
      simp only [if_true, Option.some_bind]
  · intro lim st v rel polls polls1 npre hpre hin
    have hni := not_not_intro hin
    constructor
    · simp only [move_y, hpre, Option.bind_eq_bind, Option.some_bind]
      rw [if_neg hni]
      rfl
    · intro npost polls2 hpost
      simp only [move_y, hpre, hpost, Option.bind_eq_bind, Option.some_bind]
      rw [if_neg hni]
      simp only [if_true, Option.some_bind]

/-- Witness for c2_inrange_move: a relative in-range non-blocking x move
from a cached position of 10 mm by 5 mm, and the same move blocking with
one idle poll. -/
theorem c2_inrange_move_witness :
    move_x ⟨0, 130⟩ ⟨10, 20, 100, 100, false, false, false⟩ 5 true false ["p"]
      = some ⟨⟨15, 20, 100, 100, false, true, false⟩, [Cmd.moveAbsX 15000000], ["p"]⟩
    ∧ move_x ⟨0, 130⟩ ⟨10, 20, 100, 100, false, false, false⟩ 5 true true ["0 OK IDLE -- 00"]
      = some ⟨⟨15, 20, 100, 100, false, false, false⟩,
              [Cmd.moveAbsX 15000000, Cmd.statusX], []⟩ := by
  have h1 := c2_inrange_move.1 ⟨0, 130⟩ ⟨10, 20, 100, 100, false, false, false⟩
    5 true ["p"] ["p"] 0 rfl (by norm_num)
  have h2 := c2_inrange_move.1 ⟨0, 130⟩ ⟨10, 20, 100, 100, false, false, false⟩
    5 true ["0 OK IDLE -- 00"] ["0 OK IDLE -- 00"] 0 rfl (by norm_num)
  constructor
  · rw [h1.1]
    norm_num
  · rw [h2.2 1 [] rfl]
    norm_num

/-- Counterexample to claim C1 as stated: an out-of-limits x move entered
with the x moving flag set returns normally with no motion command and an
unchanged position, but the moving flag is cleared by the initial
poll-to-idle, so the moving flag is not left unchanged. -/
theorem c1_limit_counterexample :
    move_x ⟨0, 130⟩ ⟨0, 0, 100, 100, false, true, false⟩ 131 false true ["0 OK IDLE -- 00"]
      = some ⟨⟨0, 0, 100, 100, false, false, false⟩, [Cmd.statusX], []⟩
    ∧ ¬ ((0 : ℚ) ≤ 131 ∧ (131 : ℚ) ≤ 130)
    ∧ (⟨0, 0, 100, 100, false, true, false⟩ : StageState).moving_x = true
    ∧ (⟨0, 0, 100, 100, false, false, false⟩ : StageState).moving_x = false := by
  have hc : ¬ ((0 : ℚ) ≤ 131 ∧ (131 : ℚ) ≤ 130) := by norm_num
  refine ⟨?_, hc, rfl, rfl⟩
  have hp : pollLoop true ["0 OK IDLE -- 00"] = some (1, []) := rfl
  simp only [move_x, hp, Option.bind_eq_bind, Option.some_bind]
  split
  · rename_i hrel
    exact absurd hrel (by simp)
  · rfl

/-- Claim C1 as amended: an out-of-limits per-axis move sends no motion
command, leaves the cached position unchanged, and returns normally; the
axis moving flag ends false — unchanged when the axis was idle at entry,
but cleared by the initial poll-to-idle when the axis was busy at entry;
in a two-axis move the other axis, if its target is in range, still
moves. -/
theorem c1_limit_violation_amended :
    (∀ (lim : AxisLimits) (st : StageState) (v : ℚ) (rel block : Bool)
        (polls : List String) (o : MoveOut),
      move_x lim st v rel block polls = some o →
      ¬ (lim.min_mm ≤ (if rel then st.x_mm + v else v)
          ∧ (if rel then st.x_mm + v else v) ≤ lim.max_mm) →
      o.st.x_mm = st.x_mm ∧ o.st.moving_x = false
        ∧ (∀ c ∈ o.sent, c = Cmd.statusX)
        ∧ (st.moving_x = false → o = ⟨st, [], polls⟩))
    ∧ (∀ (lim : AxisLimits) (st : StageState) (v : ℚ) (rel block : Bool)
        (polls : List String) (o : MoveOut),
      move_y lim st v rel block polls = some o →
      ¬ (lim.min_mm ≤ (if rel then st.y_mm + v else v)
          ∧ (if rel then st.y_mm + v else v) ≤ lim.max_mm) →
      o.st.y_mm = st.y_mm ∧ o.st.moving_y = false
        ∧ (∀ c ∈ o.sent, c = Cmd.statusY)
        ∧ (st.moving_y = false → o = ⟨st, [], polls⟩))
    ∧ (∀ (limx limy : AxisLimits) (st : StageState) (x y : ℚ) (rel : Bool)
        (polls : List String),
      st.moving_x = false → st.moving_y = false →
      ¬ (limx.min_mm ≤ (if rel then st.x_mm + x else x)
          ∧ (if rel then st.x_mm + x else x) ≤ limx.max_mm) →
      (limy.min_mm ≤ (if rel then st.y_mm + y else y)
          ∧ (if rel then st.y_mm + y else y) ≤ limy.max_mm) →
      move_mm limx limy st x y rel false polls
        = some ⟨{ st with
                   y_mm := (if rel then st.y_mm + y else y),
                   moving := true,
                   moving_y := true },
                [Cmd.moveAbsY (1000000 * (if rel then st.y_mm + y else y))], polls⟩) := by
  refine ⟨?_, ?_, ?_⟩
  · intro lim st v rel block polls o ho hout
    rcases hpre : pollLoop st.moving_x polls with _ | pr
    · simp only [move_x, hpre, Option.bind_eq_bind, Option.none_bind] at ho
      exact absurd ho (by simp)
    · obtain ⟨npre, polls1⟩ := pr
      simp only [move_x, hpre, Option.bind_eq_bind, Option.some_bind] at ho
      rw [if_pos hout] at ho
      obtain rfl := (Option.some.injEq _ _).mp ho
      refine ⟨rfl, rfl, ?_, ?_⟩
      · intro c hc
        exact List.eq_of_mem_replicate hc
      · intro hmx
        rw [hmx] at hpre
        have h0 : pollLoop false polls = some (0, polls) := by simp [pollLoop]
        rw [h0] at hpre
        obtain ⟨h1, h2⟩ := Prod.mk.injEq _ _ _ _ ▸ (Option.some.injEq _ _).mp hpre
        obtain ⟨sx, sy, sxs, sys, sm, smx, smy⟩ := st
        simp only at hmx
        subst hmx
        simp [← h1, ← h2]
  · intro lim st v rel block polls o ho hout
    rcases hpre : pollLoop st.moving_y polls with _ | pr
    · simp only [move_y, hpre, Option.bind_eq_bind, Option.none_bind] at ho
      exact absurd ho (by simp)
    · obtain ⟨npre, polls1⟩ := pr
      simp only [move_y, hpre, Option.bind_eq_bind, Option.some_bind] at ho
      rw [if_pos hout] at ho
      obtain rfl := (Option.some.injEq _ _).mp ho
      refine ⟨rfl, rfl, ?_, ?_⟩
      · intro c hc
        exact List.eq_of_mem_replicate hc
      · intro hmy
        rw [hmy] at hpre
        have h0 : pollLoop false polls = some (0, polls) := by simp [pollLoop]
        rw [h0] at hpre
        obtain ⟨h1, h2⟩ := Prod.mk.injEq _ _ _ _ ▸ (Option.some.injEq _ _).mp hpre
        obtain ⟨sx, sy, sxs, sys, sm, smx, smy⟩ := st
        simp only at hmy
        subst hmy
        simp [← h1, ← h2]
  · intro limx limy st x y rel polls hmx hmy houtx hiny
    obtain ⟨sx, sy, sxs, sys, sm, smx, smy⟩ := st
    simp only at hmx hmy
    subst hmx
    subst hmy
    dsimp only at houtx hiny
    have hnin := not_not_intro hiny
    have h0 : ∀ ps : List String, pollLoop false ps = some (0, ps) := by
      intro ps
      simp [pollLoop]
    simp only [move_mm, move_x, move_y, h0, Option.bind_eq_bind, Option.some_bind]
    rw [if_pos houtx]
    simp only [h0, Option.some_bind, List.replicate_zero, List.nil_append]
    rw [if_neg hnin]
    simp only [Bool.false_eq_true, if_false, Option.some_bind, List.replicate_zero,
      List.nil_append]

/-- Witness for c1_limit_violation_amended: a two-axis move with the x
target out of limits and the y target in range moves only the y axis. -/
theorem c1_limit_violation_witness :
    move_mm ⟨0, 130⟩ ⟨0, 100⟩ ⟨66, 50, 100, 100, false, false, false⟩ 131 50 false false []
      = some ⟨⟨66, 50, 100, 100, true, false, true⟩, [Cmd.moveAbsY 50000000], []⟩ := by
  have h := c1_limit_violation_amended.2.2 ⟨0, 130⟩ ⟨0, 100⟩
    ⟨66, 50, 100, 100, false, false, false⟩ 131 50 false [] rfl rfl
    (by norm_num) (by norm_num)
  rw [h]
  norm_num

end ZaberXADR130
